import Mathlib

/-!
# Chat client (`frontend/src/app.js`): request/response cycle, stats panel, quick actions

A shallow embedding of the logic of the `App` component.

* React state (`useState`) is the record `State`; a state setter is a record update.
* The handlers of one render close over that render's values of `inputValue`, `isLoading`,
  `selectedAgent` and `sessionId`: this is the record `Closure`. A handler called from the
  page (button, textarea) belongs to the latest render; the `sendMessage` captured by
  `setTimeout` in `handleQuickAction` belongs to the render in which the click happened.
* `await axios.post(..)` splits `sendMessage` in two: `sendMessage` (up to the request) and
  `settle` (the rest of the `try`/`catch`/`finally`), which receives the `Outcome`.
* Values decoded from a response body are `JsVal`; an exception is `Except.error ()`.
-/

namespace ChatClient

/-! ## Values -/

/-- A JavaScript value as it can appear in a decoded response body (plus `undefined`, the
result of reading an absent property). `num q` is a finite number, given by its exact value.
`obj` lists the own properties in insertion order, with distinct keys. -/
inductive JsVal where
  | undefined
  | null
  | bool (b : Bool)
  | num (q : ℚ)
  | str (s : String)
  | arr (items : List JsVal)
  | obj (fields : List (String × JsVal))

instance : Inhabited JsVal := ⟨JsVal.undefined⟩

/-- Own properties of an object, in insertion order. -/
abbrev Props := List (String × JsVal)

/-- Truthiness (`x && ...`, `!x`). -/
def JsVal.truthy : JsVal → Bool
  | .undefined => false
  | .null => false
  | .bool b => b
  | .num q => decide (q ≠ 0)
  | .str s => !s.isEmpty
  | .arr _ => true
  | .obj _ => true

/-- Property read `v.name` for a name that no built-in prototype defines (`charts`,
`response`, `agent_type`): a `TypeError` on `undefined` and `null`, the own property of an
object (`undefined` when absent), `undefined` on every other value. -/
def JsVal.getProp (v : JsVal) (name : String) : Except Unit JsVal :=
  match v with
  | .undefined => .error ()
  | .null => .error ()
  | .obj fields => .ok ((fields.lookup name).getD .undefined)
  | _ => .ok .undefined

/-- Number of UTF-16 code units of a string (`s.length` in JavaScript). -/
def utf16Length (s : String) : Nat :=
  (s.data.map (fun c => if c.val.toNat < 65536 then 1 else 2)).sum

/-- Property read `v.length`. -/
def JsVal.length (v : JsVal) : Except Unit JsVal :=
  match v with
  | .undefined => .error ()
  | .null => .error ()
  | .arr items => .ok (.num (items.length : ℕ))
  | .str s => .ok (.num (utf16Length s : ℕ))
  | .obj fields => .ok ((fields.lookup "length").getD .undefined)
  | .bool _ => .ok .undefined
  | .num _ => .ok .undefined

/-- The comparison `v > 0`. On `undefined`, `null`, booleans and numbers it is fixed by the
language; on strings, arrays and objects it goes through the runtime's conversion to a
number, which the source does not define and which may throw: that conversion is the
parameter `coerce`. -/
def JsVal.gtZero (coerce : JsVal → Except Unit Bool) (v : JsVal) : Except Unit Bool :=
  match v with
  | .undefined => .ok false
  | .null => .ok false
  | .bool b => .ok b
  | .num q => .ok (decide (0 < q))
  | v => coerce v

/-- Assignment `o[key] = value` on an object: an existing property keeps its place and gets
the new value, a new property goes last. -/
def objSet (o : Props) (key : String) (value : JsVal) : Props :=
  match o with
  | [] => [(key, value)]
  | (k, v) :: rest => if k = key then (k, value) :: rest else (k, v) :: objSet rest key value

/-! ## Data model -/

/-- The `charts` member of a message object: not written at all (user and error messages),
`null`, or the object built from the chart array. -/
inductive Charts where
  | absent
  | null
  | mapping (entries : Props)

/-- A message of the log. -/
structure Message where
  content : JsVal
  isUser : Bool
  agentType : JsVal
  charts : Charts

/-- The `stats` state: what `data.length` gave for each of the four collections. -/
structure Stats where
  salespersons : JsVal
  dealers : JsVal
  meetings : JsVal
  leads : JsVal

/-- The React state of `App`. `sessionId` is set once and has no setter. -/
structure State where
  messages : List Message
  inputValue : String
  isLoading : Bool
  selectedAgent : String
  sessionId : String
  stats : Stats

/-- The values of one render that `sendMessage` closes over. -/
structure Closure where
  inputValue : String
  isLoading : Bool
  selectedAgent : String
  sessionId : String

/-- The closure of the render of state `s`. -/
def State.closure (s : State) : Closure :=
  { inputValue := s.inputValue, isLoading := s.isLoading,
    selectedAgent := s.selectedAgent, sessionId := s.sessionId }

/-- The state after the first render (`useState` initial values), for a session id. -/
def initialState (sessionId : String) : State :=
  { messages := [], inputValue := "", isLoading := false, selectedAgent := "manager",
    sessionId := sessionId,
    stats := { salespersons := .num 0, dealers := .num 0, meetings := .num 0, leads := .num 0 } }

/-- Body of `POST /api/chat`. -/
structure ChatRequest where
  message : String
  agent_type : String
  session_id : String

/-- How an axios call settles: the promise rejects (network failure, non-2xx status), or it
resolves with a response whose `data` is the decoded body. -/
inductive Outcome where
  | rejected
  | resolved (data : JsVal)

/-! ## `String.prototype.trim` -/

/-- White space and line terminators of ECMAScript, the characters `trim` removes. -/
def isJsWhiteSpace (c : Char) : Bool :=
  let n := c.val.toNat
  n = 0x09 || n = 0x0A || n = 0x0B || n = 0x0C || n = 0x0D || n = 0x20 || n = 0xA0 ||
  n = 0x1680 || (0x2000 ≤ n && n ≤ 0x200A) || n = 0x2028 || n = 0x2029 || n = 0x202F ||
  n = 0x205F || n = 0x3000 || n = 0xFEFF

/-- `s.trim()`. -/
def jsTrim (s : String) : String :=
  ⟨((s.data.dropWhile isJsWhiteSpace).reverse.dropWhile isJsWhiteSpace).reverse⟩

/-! ## `sendMessage` -/

/-- The fixed message of the `catch` block. -/
def errorMessage : Message :=
  { content := .str "Sorry, I encountered an error. Please try again.",
    isUser := false, agentType := .str "error", charts := .absent }

/-- The `userMessage` object built from the closure. -/
def userMessage (c : Closure) : Message :=
  { content := .str c.inputValue, isUser := true, agentType := .str c.selectedAgent,
    charts := .absent }

/-- The guard `!inputValue.trim() || isLoading`. -/
def sendGuard (c : Closure) : Bool :=
  (jsTrim c.inputValue).isEmpty || c.isLoading

/-- The part of `sendMessage` before `await`, run with the closure `c` on the live state `s`:
returns the new state and the request issued, if any. -/
def sendMessage (c : Closure) (s : State) : State × Option ChatRequest :=
  if sendGuard c then (s, none)
  else
    ({ s with messages := s.messages ++ [userMessage c], isLoading := true },
     some { message := c.inputValue, agent_type := c.selectedAgent, session_id := c.sessionId })

/-- The callback of `forEach`: `charts["chart_" + (index + 1)] = chart`. -/
def chartKey (index : Nat) : String := "chart_" ++ toString (index + 1)

/-- The loop `response.data.charts.forEach((chart, index) => ...)` starting from `{}`. -/
def chartsForEach (items : List JsVal) : Props :=
  items.enum.foldl (fun charts ic => objSet charts (chartKey ic.1) ic.2) []

/-- Lines 137-144: the local `charts`. -/
def buildCharts (coerce : JsVal → Except Unit Bool) (data : JsVal) : Except Unit Charts := do
  let c ← data.getProp "charts"
  if c.truthy then
    let len ← c.length
    if (← len.gtZero coerce) then
      match c with
      | .arr items => .ok (.mapping (chartsForEach items))
      | _ => .error ()
    else .ok .null
  else .ok .null

/-- Lines 137-151: the `botMessage` object for a decoded body. -/
def botMessage (coerce : JsVal → Except Unit Bool) (data : JsVal) : Except Unit Message := do
  let charts ← buildCharts coerce data
  let content ← data.getProp "response"
  let agentType ← data.getProp "agent_type"
  .ok { content := content, isUser := false, agentType := agentType, charts := charts }

/-- The `try` block after the request was issued. -/
def tryBlock (coerce : JsVal → Except Unit Bool) (o : Outcome) (s : State) :
    Except Unit State :=
  match o with
  | .rejected => .error ()
  | .resolved data => do
    let m ← botMessage coerce data
    .ok { s with messages := s.messages ++ [m], inputValue := "" }

/-- The `catch` block. -/
def catchBlock (s : State) : Except Unit State :=
  .ok { s with messages := s.messages ++ [errorMessage] }

/-- The `finally` block. -/
def finallyBlock (s : State) : State :=
  { s with isLoading := false }

/-- The part of `sendMessage` after `await`: `try`, `catch` on a throw, then `finally`.
The result is `.error` when `sendMessage` itself would reject. -/
def settle (coerce : JsVal → Except Unit Bool) (o : Outcome) (s : State) : Except Unit State :=
  match tryBlock coerce o s with
  | .ok s1 => .ok (finallyBlock s1)
  | .error _ =>
    match catchBlock s with
    | .ok s1 => .ok (finallyBlock s1)
    | .error e => .error e

/-- What `ChatMessage` draws for a `charts` prop: one image per entry when
`charts && Object.keys(charts).length > 0`, nothing otherwise. -/
def renderedCharts : Charts → Props
  | .mapping entries => if entries.length > 0 then entries else []
  | _ => []

/-! ## `handleKeyPress` and `handleQuickAction` -/

/-- The handler `handleKeyPress` for a key event with the given `key` and `shiftKey`. -/
def handleKeyPress (key : String) (shiftKey : Bool) (c : Closure) (s : State) :
    State × Option ChatRequest :=
  if key = "Enter" && !shiftKey then sendMessage c s else (s, none)

/-- The handler `handleQuickAction(query, agent)` of the render with closure `c`: the two
setters, and the closure of the `sendMessage` that `setTimeout` will call. The arrow function
passed to `setTimeout` refers to the `sendMessage` of the render it was created in. -/
def handleQuickAction (query agent : String) (c : Closure) (s : State) : State × Closure :=
  ({ s with selectedAgent := agent, inputValue := query }, c)

/-! ## `fetchStats` -/

/-- The `data` of the response that `axios.get(..).catch(() => ({ data: [] }))` resolves to. -/
def statsData : Outcome → JsVal
  | .rejected => .arr []
  | .resolved data => data

/-- The argument of `setStats`, or the throw that the outer `catch` logs. -/
def statsObject (r0 r1 r2 r3 : Outcome) : Except Unit Stats := do
  let salespersons ← (statsData r0).length
  let dealers ← (statsData r1).length
  let meetings ← (statsData r2).length
  let leads ← (statsData r3).length
  .ok { salespersons := salespersons, dealers := dealers, meetings := meetings, leads := leads }

/-- The calls of `setStats` that `fetchStats` makes, in order, for the outcomes of the four
requests (`salespersons`, `dealers`, `meetings`, `leads`). -/
def fetchStatsUpdates (r0 r1 r2 r3 : Outcome) : List Stats :=
  match statsObject r0 r1 r2 r3 with
  | .ok stats => [stats]
  | .error _ => []

/-- The state after `fetchStats` has run to its end. -/
def fetchStats (r0 r1 r2 r3 : Outcome) (s : State) : State :=
  (fetchStatsUpdates r0 r1 r2 r3).foldl (fun st stats => { st with stats := stats }) s

/-! ## The page as a transition system -/

/-- The page: the committed React state, the pending timeouts (each holds the closure of the
`sendMessage` it will call, oldest first) and the chat requests not yet settled. -/
structure World where
  app : State
  timers : List Closure
  outstanding : List ChatRequest

/-- The page right after the first render. -/
def initialWorld (sessionId : String) : World :=
  { app := initialState sessionId, timers := [], outstanding := [] }

/-- What can happen to the page. -/
inductive Event where
  | editInput (text : String)
  | selectAgent (agent : String)
  | clickSend
  | pressEnter (shiftKey : Bool)
  | quickAction (query agent : String)
  | timerFires (i : Nat)
  | chatSettles (i : Nat) (o : Outcome)

/-- A call of `sendMessage` with closure `c`: the request, if one is issued, becomes
outstanding. -/
def World.send (c : Closure) (w : World) : World :=
  { w with app := (sendMessage c w.app).1,
           outstanding := w.outstanding ++ (sendMessage c w.app).2.toList }

/-- One event. Handlers attached to the page run with the closure of the current render.
The textarea has `disabled={isLoading}` and the button
`disabled={isLoading || !inputValue.trim()}`: a disabled control gives no event. -/
def step (coerce : JsVal → Except Unit Bool) (e : Event) (w : World) : World :=
  match e with
  | .editInput text =>
    if w.app.isLoading then w else { w with app := { w.app with inputValue := text } }
  | .selectAgent agent => { w with app := { w.app with selectedAgent := agent } }
  | .clickSend =>
    if w.app.isLoading || (jsTrim w.app.inputValue).isEmpty then w
    else w.send w.app.closure
  | .pressEnter shiftKey =>
    if w.app.isLoading then w
    else
      { w with app := (handleKeyPress "Enter" shiftKey w.app.closure w.app).1,
               outstanding := w.outstanding ++
                 (handleKeyPress "Enter" shiftKey w.app.closure w.app).2.toList }
  | .quickAction query agent =>
    { w with app := (handleQuickAction query agent w.app.closure w.app).1,
             timers := w.timers ++ [(handleQuickAction query agent w.app.closure w.app).2] }
  | .timerFires i =>
    match w.timers.get? i with
    | some c => World.send c { w with timers := w.timers.eraseIdx i }
    | none => w
  | .chatSettles i o =>
    if i < w.outstanding.length then
      match settle coerce o w.app with
      | .ok s => { w with app := s, outstanding := w.outstanding.eraseIdx i }
      | .error _ => { w with outstanding := w.outstanding.eraseIdx i }
    else w

/-- A sequence of events, first to last. -/
def run (coerce : JsVal → Except Unit Bool) (events : List Event) (w : World) : World :=
  events.foldl (fun w e => step coerce e w) w

/-! ## Auxiliary definitions for the statements -/

/-- Value of a list of decimal digit characters, most significant first, continuing from
`start`. -/
def digitsValue (ds : List Char) (start : Nat) : Nat :=
  ds.foldl (fun a c => a * 10 + (c.toNat - 48)) start

/-- A conversion with which the concrete examples are evaluated; none of them reaches it. -/
def sampleCoerce : JsVal → Except Unit Bool := fun _ => .ok false

/-- A state in which the user has typed a message and nothing is in flight. -/
def sampleState : State :=
  { messages := [], inputValue := "hello", isLoading := false, selectedAgent := "sales",
    sessionId := "k3x9q2m1z",
    stats := { salespersons := .num 0, dealers := .num 0, meetings := .num 0, leads := .num 0 } }

/-- The chart array of the example `charts: ["a","b"]`. -/
def sampleCharts : List JsVal := [.str "a", .str "b"]

/-- A response body with that chart array. -/
def sampleBody : Props :=
  [("response", .str "done"), ("agent_type", .str "analytics"), ("charts", .arr sampleCharts)]

/-- A stats request that fails (`none`) or succeeds with an array (`some items`). -/
def arrayOutcome : Option (List JsVal) → Outcome
  | none => .rejected
  | some items => .resolved (.arr items)

/-- The count expected for such a request: the length of the array, 0 for a failure. -/
def arrayCount : Option (List JsVal) → Nat
  | none => 0
  | some items => items.length

/-! ## Lemmas -/

theorem digitChar_value (d : Nat) (h : d < 10) : (Nat.digitChar d).toNat - 48 = d := by
  interval_cases d <;> rfl

theorem digitsValue_toDigitsCore (fuel : Nat) :
    ∀ (n : Nat) (acc : List Char), n < fuel →
      digitsValue (Nat.toDigitsCore 10 fuel n acc) 0 = digitsValue acc n := by
  induction fuel with
  | zero => intro n acc h; omega
  | succ fuel ih =>
    intro n acc h
    unfold Nat.toDigitsCore
    by_cases h0 : n / 10 = 0
    · simp only [h0, if_true]
      have hn : n < 10 := by omega
      simp [digitsValue, List.foldl_cons, digitChar_value n hn, Nat.mod_eq_of_lt hn]
    · simp only [h0, if_false]
      rw [ih (n / 10) _ (by omega)]
      simp only [digitsValue, List.foldl_cons,
        digitChar_value (n % 10) (Nat.mod_lt _ (by norm_num))]
      congr 1
      omega

theorem digitsValue_toString (n : Nat) : digitsValue (toString n).data 0 = n := by
  show digitsValue (Nat.repr n).data 0 = n
  unfold Nat.repr Nat.toDigits
  simp only [List.asString]
  rw [digitsValue_toDigitsCore (n + 1) n [] (by omega)]
  rfl

theorem toString_nat_injective (a b : Nat) (h : toString a = toString b) : a = b := by
  have := congrArg (fun s => digitsValue s.data 0) h
  simpa [digitsValue_toString] using this

theorem chartKey_injective (i j : Nat) (h : chartKey i = chartKey j) : i = j := by
  unfold chartKey at h
  have h1 : ("chart_" ++ toString (i + 1)).data = ("chart_" ++ toString (j + 1)).data := by
    rw [h]
  rw [String.data_append, String.data_append] at h1
  have h2 := List.append_cancel_left h1
  have h3 : toString (i + 1) = toString (j + 1) := String.ext h2
  have := toString_nat_injective _ _ h3
  omega

theorem objSet_fresh (o : Props) (key : String) (value : JsVal)
    (h : key ∉ o.map Prod.fst) : objSet o key value = o ++ [(key, value)] := by
  induction o with
  | nil => rfl
  | cons kv rest ih =>
    obtain ⟨k, v⟩ := kv
    simp only [List.map_cons, List.mem_cons, not_or] at h
    have hk : ¬ k = key := fun e => h.1 e.symm
    simp [objSet, hk, ih h.2]

theorem chartsForEach_from (items : List JsVal) :
    ∀ (k : Nat) (acc : Props), (∀ key ∈ acc.map Prod.fst, ∃ j, j < k ∧ key = chartKey j) →
      (items.enumFrom k).foldl (fun charts ic => objSet charts (chartKey ic.1) ic.2) acc
        = acc ++ (items.enumFrom k).map (fun ic => (chartKey ic.1, ic.2)) := by
  induction items with
  | nil => intro k acc _; simp
  | cons x rest ih =>
    intro k acc hacc
    have hfresh : chartKey k ∉ acc.map Prod.fst := by
      intro hmem
      obtain ⟨j, hj, e⟩ := hacc _ hmem
      have := chartKey_injective _ _ e
      omega
    simp only [List.enumFrom_cons, List.foldl_cons, List.map_cons]
    rw [objSet_fresh acc _ _ hfresh, ih (k + 1)]
    · simp
    · intro key hkey
      simp only [List.map_append, List.map_cons, List.map_nil, List.mem_append,
        List.mem_singleton] at hkey
      rcases hkey with hkey | hkey
      · obtain ⟨j, hj, e⟩ := hacc _ hkey
        exact ⟨j, by omega, e⟩
      · exact ⟨k, by omega, hkey⟩

theorem chartsForEach_eq (items : List JsVal) :
    chartsForEach items = items.enum.map (fun ic => (chartKey ic.1, ic.2)) := by
  unfold chartsForEach List.enum
  rw [chartsForEach_from items 0 [] (by simp)]
  simp


theorem sendGuard_false (s : State) (hin : jsTrim s.inputValue ≠ "")
    (hidle : s.isLoading = false) : sendGuard s.closure = false := by
  have h1 : (jsTrim s.inputValue).isEmpty = false := by
    cases h : (jsTrim s.inputValue).isEmpty with
    | false => rfl
    | true => exact absurd ((String.isEmpty_iff _).1 h) hin
  simp [sendGuard, State.closure, h1, hidle]

theorem sendMessage_accepted (s : State) (hin : jsTrim s.inputValue ≠ "")
    (hidle : s.isLoading = false) :
    sendMessage s.closure s =
      ({ s with messages := s.messages ++ [userMessage s.closure], isLoading := true },
       some { message := s.inputValue, agent_type := s.selectedAgent,
              session_id := s.sessionId }) := by
  simp only [sendMessage, sendGuard_false s hin hidle]
  rfl

theorem settle_of_bot (coerce : JsVal → Except Unit Bool) (data : JsVal) (m : Message)
    (s : State) (h : botMessage coerce data = .ok m) :
    settle coerce (.resolved data) s =
      .ok { s with messages := s.messages ++ [m], inputValue := "", isLoading := false } := by
  simp only [settle, tryBlock, h, finallyBlock]
  rfl

theorem settle_of_throw (coerce : JsVal → Except Unit Bool) (data : JsVal)
    (s : State) (h : botMessage coerce data = .error ()) :
    settle coerce (.resolved data) s =
      .ok { s with messages := s.messages ++ [errorMessage], isLoading := false } := by
  simp only [settle, tryBlock, h, finallyBlock, catchBlock]
  rfl

theorem settle_rejected (coerce : JsVal → Except Unit Bool) (s : State) :
    settle coerce .rejected s =
      .ok { s with messages := s.messages ++ [errorMessage], isLoading := false } := by
  rfl

theorem botMessage_isUser (coerce : JsVal → Except Unit Bool) (data : JsVal) (m : Message)
    (h : botMessage coerce data = .ok m) : m.isUser = false := by
  unfold botMessage at h
  cases hc : buildCharts coerce data with
  | error e => simp [hc, bind, Except.bind] at h
  | ok ch =>
    cases hr : data.getProp "response" with
    | error e => simp [hc, hr, bind, Except.bind] at h
    | ok r =>
      cases ha : data.getProp "agent_type" with
      | error e => simp [hc, hr, ha, bind, Except.bind] at h
      | ok a =>
        simp [hc, hr, ha, bind, Except.bind] at h
        rw [← h]

theorem lookup_chartKey (items : List JsVal) :
    ∀ (k i : Nat) (hi : i < items.length),
      ((items.enumFrom k).map (fun ic => (chartKey ic.1, ic.2))).lookup (chartKey (k + i))
        = some items[i] := by
  induction items with
  | nil => intro k i hi; simp at hi
  | cons x rest ih =>
    intro k i hi
    cases i with
    | zero => simp [List.enumFrom_cons, List.lookup_cons]
    | succ j =>
      have hne : (chartKey (k + (j + 1)) == chartKey k) = false := by
        rw [beq_eq_false_iff_ne]
        intro e
        have := chartKey_injective _ _ e
        omega
      simp only [List.enumFrom_cons, List.map_cons, List.lookup_cons, hne]
      have := ih (k + 1) j (by simpa using hi)
      rw [show k + (j + 1) = k + 1 + j by omega]
      simpa using this

theorem buildCharts_array (coerce : JsVal → Except Unit Bool) (fields : Props)
    (c : List JsVal) (hcharts : fields.lookup "charts" = some (.arr c)) (hne : c ≠ []) :
    buildCharts coerce (.obj fields) = .ok (.mapping (chartsForEach c)) := by
  have hpos : (0 : ℚ) < ((c.length : ℕ) : ℚ) := by
    exact_mod_cast List.length_pos.2 hne
  simp [buildCharts, JsVal.getProp, hcharts, JsVal.truthy, JsVal.length, JsVal.gtZero, hpos,
    bind, Except.bind]

theorem buildCharts_none (coerce : JsVal → Except Unit Bool) (fields : Props)
    (hcharts : fields.lookup "charts" = none ∨ fields.lookup "charts" = some .null ∨
      fields.lookup "charts" = some (.arr [])) :
    buildCharts coerce (.obj fields) = .ok .null := by
  rcases hcharts with h | h | h <;>
    simp [buildCharts, JsVal.getProp, h, JsVal.truthy, JsVal.length, JsVal.gtZero,
      bind, Except.bind]

theorem botMessage_obj (coerce : JsVal → Except Unit Bool) (fields : Props) (ch : Charts)
    (h : buildCharts coerce (.obj fields) = .ok ch) :
    botMessage coerce (.obj fields) =
      .ok { content := (fields.lookup "response").getD .undefined, isUser := false,
            agentType := (fields.lookup "agent_type").getD .undefined, charts := ch } := by
  simp [botMessage, h, JsVal.getProp, bind, Except.bind]

theorem send_keeps_busy (c : Closure) (w : World) (h : w.app.isLoading = true) :
    (w.send c).app.isLoading = true := by
  unfold World.send sendMessage
  by_cases hg : sendGuard c = true
  · simp [hg, h]
  · simp [hg]

theorem step_keeps_busy (coerce : JsVal → Except Unit Bool) (e : Event) (w : World)
    (h : w.app.isLoading = true) (he : ∀ i r, e ≠ .chatSettles i r) :
    (step coerce e w).app.isLoading = true := by
  cases e with
  | editInput text => simp [step, h]
  | selectAgent agent => simpa [step] using h
  | clickSend => simp [step, h]
  | pressEnter shiftKey => simp [step, h]
  | quickAction query agent => simpa [step, handleQuickAction] using h
  | timerFires i =>
    simp only [step]
    cases ht : w.timers.get? i with
    | none => simpa using h
    | some c => exact send_keeps_busy c _ h
  | chatSettles i r => exact absurd rfl (he i r)

theorem run_keeps_busy (coerce : JsVal → Except Unit Bool) (events : List Event) :
    ∀ (w : World), w.app.isLoading = true → (∀ e ∈ events, ∀ i r, e ≠ .chatSettles i r) →
      (run coerce events w).app.isLoading = true := by
  induction events with
  | nil => intro w h _; exact h
  | cons e rest ih =>
    intro w h hev
    have h1 := step_keeps_busy coerce e w h (hev e (List.mem_cons_self _ _))
    exact ih (step coerce e w) h1 (fun e2 he2 => hev e2 (List.mem_cons_of_mem _ he2))

/-! ## Calls from the current render -/

/-- A call of `sendMessage` by a handler of the current render (the button, the textarea), on
a state whose input is non-empty after trimming and whose busy flag is false, followed at once
by the settlement of its chat call: the log becomes the old log, the user message with the
input text, and one non-user message. -/
theorem direct_send_appends_user_then_reply (coerce : JsVal → Except Unit Bool) (s : State)
    (o : Outcome) (hin : jsTrim s.inputValue ≠ "") (hidle : s.isLoading = false) :
    ∃ (s1 s2 : State) (req : ChatRequest) (reply : Message),
      sendMessage s.closure s = (s1, some req) ∧
      s1.messages = s.messages ++
        [{ content := .str s.inputValue, isUser := true, agentType := .str s.selectedAgent,
           charts := .absent }] ∧
      settle coerce o s1 = .ok s2 ∧
      s2.messages = s.messages ++
        [{ content := .str s.inputValue, isUser := true, agentType := .str s.selectedAgent,
           charts := .absent }, reply] ∧
      reply.isUser = false ∧
      (reply = errorMessage ∨ ∃ data, o = .resolved data ∧ botMessage coerce data = .ok reply) := by
  rw [sendMessage_accepted s hin hidle]
  cases o with
  | rejected =>
    refine ⟨_, _, _, errorMessage, rfl, rfl, settle_rejected coerce _, ?_, rfl, Or.inl rfl⟩
    simp [userMessage, State.closure]
  | resolved data =>
    cases hb : botMessage coerce data with
    | error e =>
      refine ⟨_, _, _, errorMessage, rfl, rfl, settle_of_throw coerce data _ hb, ?_, rfl,
        Or.inl rfl⟩
      simp [userMessage, State.closure]
    | ok m =>
      refine ⟨_, _, _, m, rfl, rfl, settle_of_bot coerce data m _ hb, ?_,
        botMessage_isUser coerce data m hb, Or.inr ⟨data, rfl, hb⟩⟩
      simp [userMessage, State.closure]

/-- A call of `sendMessage` by a handler of the current render, on a state whose input is
blank or whose busy flag is true: nothing changes and no request is issued. -/
theorem direct_send_guard_blocks (s : State)
    (h : (∀ ch ∈ s.inputValue.data, isJsWhiteSpace ch = true) ∨ s.isLoading = true) :
    sendMessage s.closure s = (s, none) := by
  have hg : sendGuard s.closure = true := by
    rcases h with h | h
    · have h1 : s.inputValue.data.dropWhile isJsWhiteSpace = [] :=
        List.dropWhile_eq_nil_iff.2 h
      have h2 : jsTrim s.inputValue = "" := by
        simp [jsTrim, h1]
      have h3 : (jsTrim s.inputValue).isEmpty = true := by rw [h2]; rfl
      simp [sendGuard, State.closure, h3]
    · simp [sendGuard, State.closure, h]
  simp [sendMessage, hg]

/-- A call of `sendMessage` by a handler of the current render that passes the guard: the
busy flag is true afterwards and stays true as long as no chat call at all settles; when the
call settles right after the send, the busy flag is false, and the input text is empty if the
bot message was built and unchanged otherwise. -/
theorem direct_send_cycle_busy_flag (coerce : JsVal → Except Unit Bool) (s : State)
    (o : Outcome) (hin : jsTrim s.inputValue ≠ "") (hidle : s.isLoading = false) :
    (sendMessage s.closure s).1.isLoading = true ∧
    (sendMessage s.closure s).1.inputValue = s.inputValue ∧
    (∀ (w : World) (events : List Event), w.app = (sendMessage s.closure s).1 →
      (∀ e ∈ events, ∀ i r, e ≠ .chatSettles i r) →
      (run coerce events w).app.isLoading = true) ∧
    ∃ s2 : State,
      settle coerce o (sendMessage s.closure s).1 = .ok s2 ∧
      s2.isLoading = false ∧
      ((∃ data m, o = .resolved data ∧ botMessage coerce data = .ok m) →
        s2.inputValue = "") ∧
      ((o = .rejected ∨ ∃ data, o = .resolved data ∧ botMessage coerce data = .error ()) →
        s2.inputValue = s.inputValue) := by
  rw [sendMessage_accepted s hin hidle]
  refine ⟨rfl, rfl, ?_, ?_⟩
  · intro w events hw hev
    exact run_keeps_busy coerce events w (by rw [hw]) hev
  · cases o with
    | rejected =>
      refine ⟨_, settle_rejected coerce _, rfl, ?_, fun _ => rfl⟩
      rintro ⟨data, m, ho, _⟩
      cases ho
    | resolved data =>
      cases hb : botMessage coerce data with
      | error e =>
        refine ⟨_, settle_of_throw coerce data _ hb, rfl, ?_, fun _ => rfl⟩
        rintro ⟨d, m, ho, hm⟩
        cases ho
        rw [hb] at hm
        cases hm
      | ok m =>
        refine ⟨_, settle_of_bot coerce data m _ hb, rfl, fun _ => rfl, ?_⟩
        rintro (ho | ⟨d, ho, hm⟩)
        · cases ho
        · cases ho
          rw [hb] at hm
          cases hm

/-! ## The claims -/

/-- C1: the claim fails on the deferred call of a quick action. The user types "hi" and
clicks a quick action with query "Q": the state is then idle with input text "Q", non-empty
after trimming. The timer calls `sendMessage` and the chat call settles: the user message
appended has content "hi" and agent "manager", the values of the render before the click,
not the input text "Q". If the user also clicks Send before the timer fires, the log before
that accepted send is empty and the log after its chat call has settled holds three
messages, two user messages in a row and one reply. -/
theorem stale_send_appends_old_input (coerce : JsVal → Except Unit Bool)
    (sessionId : String) :
    (run coerce [.editInput "hi", .quickAction "Q" "analytics"] (initialWorld sessionId)).app
      = { initialState sessionId with inputValue := "Q", selectedAgent := "analytics" } ∧
    (run coerce [.editInput "hi", .quickAction "Q" "analytics", .timerFires 0,
        .chatSettles 0 .rejected] (initialWorld sessionId)).app.messages
      = [{ content := .str "hi", isUser := true, agentType := .str "manager",
           charts := .absent },
         errorMessage] ∧
    (run coerce [.editInput "hi", .quickAction "Q" "analytics", .clickSend, .timerFires 0,
        .chatSettles 0 .rejected] (initialWorld sessionId)).app.messages
      = [{ content := .str "Q", isUser := true, agentType := .str "analytics",
           charts := .absent },
         { content := .str "hi", isUser := true, agentType := .str "manager",
           charts := .absent },
         errorMessage] := by
  refine ⟨rfl, rfl, rfl⟩

/-- C2: for a successful chat response whose `charts` field is a non-empty array `c` of
length `n`, the bot message appended by `sendMessage` carries a chart mapping whose keys are
exactly `chart_1`, ..., `chart_n` (in this order, without repetition), whose values are the
elements of `c`, and in which `chart_i` maps to the `i`-th element of `c` (1-based); these
entries are what `ChatMessage` draws. -/
theorem bot_message_chart_mapping (coerce : JsVal → Except Unit Bool) (s : State)
    (fields : Props) (c : List JsVal)
    (hcharts : fields.lookup "charts" = some (.arr c)) (hne : c ≠ []) :
    ∃ entries : Props,
      settle coerce (.resolved (.obj fields)) s =
        .ok { s with
              messages := s.messages ++
                [{ content := (fields.lookup "response").getD .undefined, isUser := false,
                   agentType := (fields.lookup "agent_type").getD .undefined,
                   charts := .mapping entries }],
              inputValue := "", isLoading := false } ∧
      entries.map Prod.fst = (List.range c.length).map (fun i => "chart_" ++ toString (i + 1)) ∧
      entries.map Prod.snd = c ∧
      (entries.map Prod.fst).Nodup ∧
      (∀ (i : Nat) (hi : i < c.length),
        entries.lookup ("chart_" ++ toString (i + 1)) = some (c.get ⟨i, hi⟩)) ∧
      renderedCharts (.mapping entries) = entries := by
  have hkeys : (c.enum.map (fun ic => (chartKey ic.1, ic.2))).map Prod.fst
      = (List.range c.length).map (fun i => "chart_" ++ toString (i + 1)) := by
    rw [← List.enum_map_fst, List.map_map, List.map_map]
    rfl
  refine ⟨c.enum.map (fun ic => (chartKey ic.1, ic.2)), ?_, hkeys, ?_, ?_, ?_, ?_⟩
  · have hb := botMessage_obj coerce fields _ (buildCharts_array coerce fields c hcharts hne)
    rw [settle_of_bot coerce _ _ s hb, chartsForEach_eq]
  · rw [List.map_map]
    exact List.enum_map_snd c
  · rw [hkeys]
    refine List.Nodup.map ?_ (List.nodup_range _)
    intro i j e
    exact chartKey_injective i j e
  · intro i hi
    have := lookup_chartKey c 0 i hi
    simpa [List.enum, chartKey] using this
  · have hlen : 0 < (c.enum.map (fun ic => (chartKey ic.1, ic.2))).length := by
      simpa using List.length_pos.2 hne
    simp only [renderedCharts, gt_iff_lt, hlen, if_true]

theorem bot_message_chart_mapping_witness :
    sampleBody.lookup "charts" = some (.arr sampleCharts) ∧
    sampleCharts ≠ [] ∧
    ∃ entries : Props,
      settle sampleCoerce (.resolved (.obj sampleBody)) sampleState =
        .ok { sampleState with
              messages := sampleState.messages ++
                [{ content := (sampleBody.lookup "response").getD .undefined, isUser := false,
                   agentType := (sampleBody.lookup "agent_type").getD .undefined,
                   charts := .mapping entries }],
              inputValue := "", isLoading := false } ∧
      entries.map Prod.fst =
        (List.range sampleCharts.length).map (fun i => "chart_" ++ toString (i + 1)) ∧
      entries.map Prod.snd = sampleCharts ∧
      (entries.map Prod.fst).Nodup ∧
      (∀ (i : Nat) (hi : i < sampleCharts.length),
        entries.lookup ("chart_" ++ toString (i + 1)) = some (sampleCharts.get ⟨i, hi⟩)) ∧
      renderedCharts (.mapping entries) = entries :=
  ⟨rfl, by simp [sampleCharts],
    bot_message_chart_mapping sampleCoerce sampleState sampleBody sampleCharts rfl
      (by simp [sampleCharts])⟩

/-- C3: for an accepted send (input non-empty after trimming, busy flag false), when the
chat request is rejected the continuation of `sendMessage` completes without throwing, and
the log is the old log, the user message, and then exactly the message with content
"Sorry, I encountered an error. Please try again.", `isUser` false, `agentType` "error" and
no `charts` member. -/
theorem transport_failure_appends_error (coerce : JsVal → Except Unit Bool) (s : State)
    (hin : jsTrim s.inputValue ≠ "") (hidle : s.isLoading = false) :
    settle coerce .rejected (sendMessage s.closure s).1 =
      .ok { s with
            messages := s.messages ++
              [{ content := .str s.inputValue, isUser := true,
                 agentType := .str s.selectedAgent, charts := .absent },
               { content := .str "Sorry, I encountered an error. Please try again.",
                 isUser := false, agentType := .str "error", charts := .absent }],
            isLoading := false } := by
  rw [sendMessage_accepted s hin hidle, settle_rejected]
  simp [userMessage, State.closure, errorMessage]

theorem transport_failure_appends_error_witness :
    jsTrim sampleState.inputValue ≠ "" ∧ sampleState.isLoading = false ∧
    settle sampleCoerce .rejected (sendMessage sampleState.closure sampleState).1 =
      .ok { sampleState with
            messages := sampleState.messages ++
              [{ content := .str sampleState.inputValue, isUser := true,
                 agentType := .str sampleState.selectedAgent, charts := .absent },
               { content := .str "Sorry, I encountered an error. Please try again.",
                 isUser := false, agentType := .str "error", charts := .absent }],
            isLoading := false } :=
  ⟨by decide, rfl, transport_failure_appends_error sampleCoerce sampleState (by decide) rfl⟩

/-- C4: the claim fails on the deferred call of a quick action. The user types "hi", clicks
a quick action and clicks Send: the busy flag is true, the log holds one message and one
request is outstanding. The timer then calls the `sendMessage` of the render before the
quick action, whose guard reads `isLoading` false and input "hi": a second user message is
appended and a second request is issued although the busy flag of the state is true. In the
same way, if the user instead empties the textarea to white space before the timer fires,
the deferred call appends a message and issues a request although the input text of the
state is blank. -/
theorem stale_send_passes_guard (coerce : JsVal → Except Unit Bool) (sessionId : String) :
    (run coerce [.editInput "hi", .quickAction "Q" "analytics", .clickSend]
        (initialWorld sessionId)).app.isLoading = true ∧
    (run coerce [.editInput "hi", .quickAction "Q" "analytics", .clickSend]
        (initialWorld sessionId)).app.messages
      = [{ content := .str "Q", isUser := true, agentType := .str "analytics",
           charts := .absent }] ∧
    (run coerce [.editInput "hi", .quickAction "Q" "analytics", .clickSend, .timerFires 0]
        (initialWorld sessionId)).app.messages
      = [{ content := .str "Q", isUser := true, agentType := .str "analytics",
           charts := .absent },
         { content := .str "hi", isUser := true, agentType := .str "manager",
           charts := .absent }] ∧
    (run coerce [.editInput "hi", .quickAction "Q" "analytics", .clickSend, .timerFires 0]
        (initialWorld sessionId)).outstanding.length = 2 ∧
    (run coerce [.editInput "hi", .quickAction "Q" "analytics", .editInput "  "]
        (initialWorld sessionId)).app
      = { initialState sessionId with inputValue := "  ", selectedAgent := "analytics" } ∧
    (run coerce [.editInput "hi", .quickAction "Q" "analytics", .editInput "  ",
        .timerFires 0] (initialWorld sessionId)).app.messages
      = [{ content := .str "hi", isUser := true, agentType := .str "manager",
           charts := .absent }] ∧
    (run coerce [.editInput "hi", .quickAction "Q" "analytics", .editInput "  ",
        .timerFires 0] (initialWorld sessionId)).outstanding
      = [{ message := "hi", agent_type := "manager", session_id := sessionId }] := by
  refine ⟨rfl, rfl, rfl, rfl, rfl, rfl, rfl⟩

/-- C5: for every combination of outcomes of the four stats requests, each a failure or a
success carrying an array, `fetchStats` calls `setStats` exactly once, with each field equal
to the length of the array of its request when it succeeded and to 0 when it failed; the
resulting state differs from the old one in `stats` only. -/
theorem fetchStats_counts (a0 a1 a2 a3 : Option (List JsVal)) (s : State) :
    fetchStatsUpdates (arrayOutcome a0) (arrayOutcome a1) (arrayOutcome a2) (arrayOutcome a3)
      = [{ salespersons := .num ((arrayCount a0 : ℕ) : ℚ),
           dealers := .num ((arrayCount a1 : ℕ) : ℚ),
           meetings := .num ((arrayCount a2 : ℕ) : ℚ),
           leads := .num ((arrayCount a3 : ℕ) : ℚ) }] ∧
    fetchStats (arrayOutcome a0) (arrayOutcome a1) (arrayOutcome a2) (arrayOutcome a3) s
      = { s with stats :=
            { salespersons := .num ((arrayCount a0 : ℕ) : ℚ),
              dealers := .num ((arrayCount a1 : ℕ) : ℚ),
              meetings := .num ((arrayCount a2 : ℕ) : ℚ),
              leads := .num ((arrayCount a3 : ℕ) : ℚ) } } := by
  cases a0 <;> cases a1 <;> cases a2 <;> cases a3 <;> exact ⟨rfl, rfl⟩

/-- C6: on the page as first rendered (empty input, not busy), after
`handleQuickAction(query, agent)` and the firing of the timer it set, the selected agent is
`agent` and the input text is `query`, but the message log is still empty and no request was
issued: the deferred `sendMessage` is the one of the render before the click, and its guard
sees the empty input. -/
theorem quick_action_from_initial_sends_nothing (coerce : JsVal → Except Unit Bool)
    (sessionId query agent : String) :
    (run coerce [.quickAction query agent, .timerFires 0] (initialWorld sessionId)).app
      = { initialState sessionId with selectedAgent := agent, inputValue := query } ∧
    (run coerce [.quickAction query agent, .timerFires 0] (initialWorld sessionId)).outstanding
      = [] ∧
    (run coerce [.quickAction query agent, .timerFires 0] (initialWorld sessionId)).timers
      = [] := by
  refine ⟨rfl, rfl, rfl⟩

/-- C7 as stated fails: after an accepted send, a response body without the `response`
field gives a bot message built from that body (content `undefined`), which is not the
fallback message. -/
theorem absent_response_field_gives_bot_message :
    settle sampleCoerce (.resolved (.obj [("agent_type", .str "sales")]))
        (sendMessage sampleState.closure sampleState).1
      = .ok { sampleState with
              messages :=
                [{ content := .str "hello", isUser := true, agentType := .str "sales",
                   charts := .absent },
                 { content := .undefined, isUser := false, agentType := .str "sales",
                   charts := .null }],
              inputValue := "", isLoading := false } ∧
    ({ content := .undefined, isUser := false, agentType := .str "sales",
       charts := .null } : Message) ≠ errorMessage := by
  refine ⟨rfl, ?_⟩
  intro h
  have hc := congrArg Message.content h
  simp [errorMessage] at hc

/-- C7, amended: when the chat call resolves with an object body and the handling of its
`charts` field does not throw, `sendMessage` appends one bot message built from the body as
it is, with content the `response` field and `agentType` the `agent_type` field, each
`undefined` when the field is absent, and clears the input; the fixed fallback message is
what is appended when the call is rejected or the body is `null` or `undefined`. -/
theorem incomplete_body_gives_bot_message (coerce : JsVal → Except Unit Bool) (s : State)
    (fields : Props) (ch : Charts) (hch : buildCharts coerce (.obj fields) = .ok ch) :
    settle coerce (.resolved (.obj fields)) s =
      .ok { s with
            messages := s.messages ++
              [{ content := (fields.lookup "response").getD .undefined, isUser := false,
                 agentType := (fields.lookup "agent_type").getD .undefined, charts := ch }],
            inputValue := "", isLoading := false } ∧
    settle coerce .rejected s =
      .ok { s with messages := s.messages ++ [errorMessage], isLoading := false } ∧
    settle coerce (.resolved .null) s =
      .ok { s with messages := s.messages ++ [errorMessage], isLoading := false } ∧
    settle coerce (.resolved .undefined) s =
      .ok { s with messages := s.messages ++ [errorMessage], isLoading := false } := by
  refine ⟨settle_of_bot coerce _ _ s (botMessage_obj coerce fields ch hch),
    settle_rejected coerce s, ?_, ?_⟩
  · exact settle_of_throw coerce .null s rfl
  · exact settle_of_throw coerce .undefined s rfl

theorem incomplete_body_gives_bot_message_witness :
    buildCharts sampleCoerce (.obj [("agent_type", .str "sales")]) = .ok .null ∧
    settle sampleCoerce (.resolved (.obj [("agent_type", .str "sales")])) sampleState =
      .ok { sampleState with
            messages := sampleState.messages ++
              [{ content := (([("agent_type", .str "sales")] : Props).lookup "response").getD
                   .undefined,
                 isUser := false,
                 agentType := (([("agent_type", .str "sales")] : Props).lookup
                   "agent_type").getD .undefined,
                 charts := .null }],
            inputValue := "", isLoading := false } ∧
    settle sampleCoerce .rejected sampleState =
      .ok { sampleState with messages := sampleState.messages ++ [errorMessage],
                             isLoading := false } ∧
    settle sampleCoerce (.resolved .null) sampleState =
      .ok { sampleState with messages := sampleState.messages ++ [errorMessage],
                             isLoading := false } ∧
    settle sampleCoerce (.resolved .undefined) sampleState =
      .ok { sampleState with messages := sampleState.messages ++ [errorMessage],
                             isLoading := false } :=
  ⟨rfl, incomplete_body_gives_bot_message sampleCoerce sampleState
    [("agent_type", .str "sales")] .null rfl⟩

/-- C8: starting from the first render, the user types "hi", clicks a quick action, clicks
Send, and then the timer of the quick action fires: two chat requests are outstanding at
once. The click on Send issued the first; the deferred `sendMessage` belongs to the render
before the quick action, whose `isLoading` is false and whose input is "hi", so its guard
lets the second through while the first has not settled. -/
theorem stale_timer_issues_second_request (coerce : JsVal → Except Unit Bool)
    (sessionId : String) :
    (run coerce [.editInput "hi", .quickAction "Q" "analytics", .clickSend, .timerFires 0]
        (initialWorld sessionId)).outstanding
      = [{ message := "Q", agent_type := "analytics", session_id := sessionId },
         { message := "hi", agent_type := "manager", session_id := sessionId }] ∧
    (run coerce [.editInput "hi", .quickAction "Q" "analytics", .clickSend]
        (initialWorld sessionId)).outstanding
      = [{ message := "Q", agent_type := "analytics", session_id := sessionId }] ∧
    (run coerce [.editInput "hi", .quickAction "Q" "analytics", .clickSend]
        (initialWorld sessionId)).app.isLoading = true := by
  refine ⟨rfl, rfl, rfl⟩

/-- C9: for a successful chat response whose `charts` field is absent, `null` or an empty
array, the bot message appended by `sendMessage` has `charts` equal to `null`, `ChatMessage`
draws no chart for it, and its content and `agentType` are the `response` and `agent_type`
of the body. -/
theorem bot_message_without_charts (coerce : JsVal → Except Unit Bool) (s : State)
    (fields : Props)
    (hcharts : fields.lookup "charts" = none ∨ fields.lookup "charts" = some .null ∨
      fields.lookup "charts" = some (.arr [])) :
    settle coerce (.resolved (.obj fields)) s =
      .ok { s with
            messages := s.messages ++
              [{ content := (fields.lookup "response").getD .undefined, isUser := false,
                 agentType := (fields.lookup "agent_type").getD .undefined,
                 charts := .null }],
            inputValue := "", isLoading := false } ∧
    renderedCharts .null = [] := by
  exact ⟨settle_of_bot coerce _ _ s
    (botMessage_obj coerce fields .null (buildCharts_none coerce fields hcharts)), rfl⟩

theorem bot_message_without_charts_witness :
    (([("response", .str "ok"), ("agent_type", .str "sales"), ("charts", .arr [])] :
        Props).lookup "charts" = none ∨
      ([("response", .str "ok"), ("agent_type", .str "sales"), ("charts", .arr [])] :
        Props).lookup "charts" = some .null ∨
      ([("response", .str "ok"), ("agent_type", .str "sales"), ("charts", .arr [])] :
        Props).lookup "charts" = some (.arr [])) ∧
    settle sampleCoerce
        (.resolved (.obj [("response", .str "ok"), ("agent_type", .str "sales"),
          ("charts", .arr [])])) sampleState =
      .ok { sampleState with
            messages := sampleState.messages ++
              [{ content := (([("response", .str "ok"), ("agent_type", .str "sales"),
                   ("charts", .arr [])] : Props).lookup "response").getD .undefined,
                 isUser := false,
                 agentType := (([("response", .str "ok"), ("agent_type", .str "sales"),
                   ("charts", .arr [])] : Props).lookup "agent_type").getD .undefined,
                 charts := .null }],
            inputValue := "", isLoading := false } ∧
    renderedCharts .null = [] :=
  ⟨Or.inr (Or.inr rfl), bot_message_without_charts sampleCoerce sampleState
    [("response", .str "ok"), ("agent_type", .str "sales"), ("charts", .arr [])]
    (Or.inr (Or.inr rfl))⟩

/-- C10: the claim fails when the deferred call of a quick action overlaps an accepted send.
The user types "hi", clicks a quick action and clicks Send: the send is accepted, the busy
flag is true and the request with message "Q" is outstanding. The timer fires and the stale
`sendMessage` issues a second request; when that second call settles first, its `finally`
sets the busy flag to false while the request of the accepted send is still outstanding.
If the second call succeeded, it also cleared the input, so that after the first call then
fails the input text is empty, not "Q" as it was at send time. -/
theorem busy_flag_drops_before_settlement (coerce : JsVal → Except Unit Bool)
    (sessionId : String) :
    (run coerce [.editInput "hi", .quickAction "Q" "analytics", .clickSend]
        (initialWorld sessionId)).app.isLoading = true ∧
    (run coerce [.editInput "hi", .quickAction "Q" "analytics", .clickSend]
        (initialWorld sessionId)).app.inputValue = "Q" ∧
    (run coerce [.editInput "hi", .quickAction "Q" "analytics", .clickSend]
        (initialWorld sessionId)).outstanding
      = [{ message := "Q", agent_type := "analytics", session_id := sessionId }] ∧
    (run coerce [.editInput "hi", .quickAction "Q" "analytics", .clickSend, .timerFires 0,
        .chatSettles 1 .rejected] (initialWorld sessionId)).app.isLoading = false ∧
    (run coerce [.editInput "hi", .quickAction "Q" "analytics", .clickSend, .timerFires 0,
        .chatSettles 1 .rejected] (initialWorld sessionId)).outstanding
      = [{ message := "Q", agent_type := "analytics", session_id := sessionId }] ∧
    (run coerce [.editInput "hi", .quickAction "Q" "analytics", .clickSend, .timerFires 0,
        .chatSettles 1
          (.resolved (.obj [("response", .str "ok"), ("agent_type", .str "manager")])),
        .chatSettles 0 .rejected] (initialWorld sessionId)).app.inputValue = "" := by
  refine ⟨rfl, rfl, rfl, rfl, rfl, rfl⟩

end ChatClient
